import Mathlib

/-!
Shallow embedding of the asynchronous orchestration layer of the Deep_Research
service (app.py, service.py, src/multi_agent_supervisor.py) and proofs about
its job lifecycle, supervisor fan-out aggregation and session multiplexer.
-/

namespace DeepResearch

/-! ## Job store data model (app.py 16-29) -/

/-- `JobStatus` (app.py 16-20). -/
inductive JobStatus
  | queued
  | running
  | done
  | failed
deriving DecidableEq, Repr

/-- `JobState` (app.py 23-26): one record of the module-level `JOBS` dict. -/
structure JobState where
  status : JobStatus
  result : Option String
  error : Option String
deriving DecidableEq, Repr

/-- The `JOBS` dict, as an association list keyed by job id. -/
def Store := List (String × JobState)

/-! ## The backend graph stream and run_deep_research (service.py) -/

/-- The `final_state` dict captured from the LangGraph stream
(service.py 79-81): the two report fields the extraction code reads. -/
structure GraphState where
  final_report : Option String
  draft_report : Option String
deriving DecidableEq, Repr

/-- Python truthiness of an optional string value: `None` and `""` are falsy. -/
def pyTruthy : Option String → Bool
  | none => false
  | some s => !s.isEmpty

/-- Outcome of one invocation of the compiled agent graph (an external
collaborator): the `astream_events` loop either raises, or completes having
captured `final_state` from the last `LangGraph` chain-end event (or captured
nothing). -/
inductive BackendOutcome
  | raises (msg : String)
  | streams (finalState : Option GraphState)
deriving DecidableEq, Repr

/-- `run_deep_research` (service.py 18-95): a raised exception propagates
(`Except.error`); otherwise the function returns a report string, falling back
from `final_report` to `draft_report` and then to fixed error-message strings
when the state is missing or malformed. -/
def run_deep_research : BackendOutcome → Except String String
  | .raises msg => .error msg
  | .streams none => .ok "Error: No final state returned from graph stream."
  | .streams (some st) =>
      if pyTruthy st.final_report then .ok (st.final_report.getD "")
      else if pyTruthy st.draft_report then .ok (st.draft_report.getD "")
      else .ok "Error: No final_report or draft_report found in result state."

/-! ## background_deep_research (app.py 70-89) -/

/-- The record inserted by the endpoint when a job is created
(app.py 153: `JobState(status=JobStatus.QUEUED, result=None)`). -/
def queuedJob : JobState := ⟨.queued, none, none⟩

/-- The record after `background_deep_research`'s first write
(app.py 73-74: `JOBS[job_id].status = JobStatus.RUNNING`). -/
def background_set_running (j : JobState) : JobState := { j with status := .running }

/-- The terminal write of `background_deep_research` (app.py 76-89): on a normal
return of `run_deep_research` the job becomes Done with `result` set; on a
raised exception it becomes Failed with `error` set and `result` set to
`"Failed: <e>"`. -/
def background_finish (o : BackendOutcome) (j : JobState) : JobState :=
  match run_deep_research o with
  | .ok report => { j with status := .done, result := some report }
  | .error e => { j with status := .failed, error := some e, result := some ("Failed: " ++ e) }

/-- The sequence of record values one job in `JOBS` passes through: inserted
Queued by the endpoint, set Running, then exactly one terminal write. There is
no await between the assignments of either terminal branch, so these three
snapshots are the only ones a concurrent reader can observe. -/
def httpJobStates (o : BackendOutcome) : List JobState :=
  [queuedJob, background_set_running queuedJob,
   background_finish o (background_set_running queuedJob)]

/-! ## is_job_id_missing and the /deep-research endpoint (app.py 92-186) -/

/-- Python `str.strip()`: drop leading and trailing whitespace characters. -/
def pyStrip (s : String) : String :=
  ⟨((s.data.dropWhile Char.isWhitespace).reverse.dropWhile Char.isWhitespace).reverse⟩

/-- Python `str.lower()`: lowercase every character (the inputs compared in
app.py are ASCII). -/
def pyLower (s : String) : String :=
  ⟨s.data.map Char.toLower⟩

/-- `is_job_id_missing` (app.py 92-100). -/
def is_job_id_missing : Option String → Bool
  | none => true
  | some s =>
      if s.isEmpty then true
      else
        let cleaned := pyStrip s
        if cleaned.isEmpty then true
        else pyLower cleaned == "no keywords added"

/-- Python `a or b` on two optional strings, as used for
`body.get("prompt") or body.get("query")` (app.py 145). -/
def pyOrOpt (a b : Option String) : Option String :=
  if pyTruthy a then a else b

/-- Python f-string rendering of an optional string (`None` prints as "None"). -/
def pyStr : Option String → String
  | none => "None"
  | some s => s

/-- Python `job.result or job.error` rendered into the failure message
(app.py 183). -/
def pyOrStr (a b : Option String) : String :=
  if pyTruthy a then a.getD "" else pyStr b

/-- The response of the poll branch of `deep_research_endpoint`
(app.py 162-186), one constructor per return statement. -/
inductive PollReply
  | notFound
  | inProgress (job_id : String)
  | doneResult (result : Option String)
  | failedResult (job_id : String) (msg : String)
  | unknownState
deriving DecidableEq, Repr

/-- The poll branch of `deep_research_endpoint` (app.py 162-186): a pure read
of the `JOBS` record under the trimmed job id. -/
def pollMessage (job_id : String) (s : Store) : PollReply :=
  match List.lookup job_id s with
  | none => .notFound
  | some job =>
      if job.status = .queued ∨ job.status = .running then .inProgress job_id
      else if job.status = .done then .doneResult job.result
      else if job.status = .failed then .failedResult job_id (pyOrStr job.result job.error)
      else .unknownState

/-- Request body fields read by `deep_research_endpoint` (app.py 32-38, 140-145). -/
structure ReqBody where
  job_id : Option String
  prompt : Option String
  query : Option String
deriving DecidableEq, Repr

/-- Dict assignment `JOBS[id] = v`: overwrite the key's binding. -/
def setEntry (s : List (String × JobState)) (id : String) (v : JobState) :
    List (String × JobState) :=
  (id, v) :: s.filter (fun p => p.1 ≠ id)

/-- The response of `deep_research_endpoint` (app.py 135-186). -/
inductive EndpointResult
  | errorNoPrompt
  | started (job_id : String)
  | polled (r : PollReply)
deriving DecidableEq, Repr

/-- `deep_research_endpoint` (app.py 135-186). `freshId` models the
`str(uuid.uuid4())` drawn at line 151. Returns the response, the updated
`JOBS` store (updated before the response is returned), and the
background task spawned for a started job (its job id and prompt). -/
def deep_research_endpoint (freshId : String) (body : ReqBody) (s : Store) :
    EndpointResult × Store × Option (String × String) :=
  if is_job_id_missing body.job_id then
    let prompt := pyStrip ((pyOrOpt body.prompt body.query).getD "")
    if prompt.isEmpty then (.errorNoPrompt, s, none)
    else (.started freshId, setEntry s freshId queuedJob, some (freshId, prompt))
  else
    let id := pyStrip (body.job_id.getD "")
    (.polled (pollMessage id s), s, none)

/-! ## The MCP job store RESEARCH_JOBS and run_research_task (app.py 234-257) -/

/-- One record of `RESEARCH_JOBS` (a dict with keys `status`, `result`, `logs`
and, set only on failure, `error`; `error = none` models the absent key). -/
structure McpJob where
  status : String
  result : Option String
  error : Option String
  logs : List String
deriving DecidableEq, Repr

/-- The record `run_research_task` creates when it starts
(app.py 241: `{"status": "running", "result": None, "logs": []}`). -/
def mcpInitJob : McpJob := ⟨"running", none, none, []⟩

/-- The terminal write of `run_research_task` (app.py 247-257): a normal
return of `run_deep_research` sets status "completed" and `result`; a raised
exception sets status "failed" and `error` (leaving `result` untouched). -/
def mcpFinishJob (o : Except String String) (j : McpJob) : McpJob :=
  match o with
  | .ok r => { j with status := "completed", result := some r }
  | .error e => { j with status := "failed", error := some e }

/-- Abstract model of one research invocation: how many time units until
`run_deep_research` resolves, and with what outcome. -/
structure ResearchRun where
  duration : Nat
  outcome : BackendOutcome
deriving DecidableEq, Repr

/-- `RESEARCH_JOBS[job_id]` as visible `t` time units after `run_research_task`
started (app.py 237-257): created with status "running" at task start, finished
with `run_deep_research`'s outcome at time `r.duration`. `logs` holds the
`status_callback` lines appended so far. -/
def mcpJobAt (r : ResearchRun) (logs : List String) (t : Nat) : McpJob :=
  if t < r.duration then { mcpInitJob with logs := logs }
  else mcpFinishJob (run_deep_research r.outcome) { mcpInitJob with logs := logs }

/-- `job_id = str(uuid.uuid4())[:8]` (app.py 332): the first 8 characters of
the drawn uuid string (Python slicing is per character). -/
def mcpJobId (u : String) : String := ⟨u.data.take 8⟩

/-- `get_research_status` branch of `call_tool` (app.py 304-322): a pure read
of `RESEARCH_JOBS`. -/
def get_research_status (store : List (String × McpJob)) (job_id : Option String) : String :=
  match job_id with
  | none => "Error: job_id is required"
  | some id =>
      match List.lookup id store with
      | none => "Job not found"
      | some job =>
          if job.status = "running" then
            "Job " ++ id ++ " is still running.\nLATEST STATUS: " ++
              (job.logs.getLast?.getD "Processing...") ++ "\n\nPlease check again in 10 seconds."
          else if job.status = "failed" then
            "Job " ++ id ++ " failed: " ++ pyStr job.error
          else
            job.result.getD ""

/-! ## asyncio.wait_for, the sync endpoint and the deep_research tool
(app.py 189-217, 325-368) -/

/-- Result of `asyncio.wait_for`: either the awaited task finished within the
deadline, or the wait timed out. -/
inductive WaitOutcome
  | completed
  | timedOut
deriving DecidableEq, Repr

/-- `asyncio.wait_for` semantics over the abstract clock: the wait completes
iff the task's duration fits in the deadline; on timeout `wait_for` cancels
the awaited awaitable — unless the caller wrapped it in `asyncio.shield`, in
which case the inner task keeps running. The boolean is whether the underlying
task ended up cancelled. -/
def wait_for (shielded : Bool) (deadline : Nat) (duration : Nat) : WaitOutcome × Bool :=
  if duration ≤ deadline then (.completed, false)
  else (.timedOut, !shielded)

/-- Response of `/deep-research/sync` (app.py 189-217): always a plain text
message; the endpoint never creates a job record and never returns a job id. -/
inductive SyncReply
  | message (s : String)
deriving DecidableEq, Repr

/-- Whether the name `logger` is bound in app.py's module namespace. It is
not: `logger` is referenced at app.py 203, 210 and 213 but never imported or
assigned anywhere in the file, so evaluating any `logger.…` call raises
`NameError` with the message rendered below. -/
def logger_defined : Bool := false

/-- What one request to `/deep-research/sync` did: the reply sent, whether a
`run_deep_research` task was ever started, and whether that task ended up
cancelled. -/
structure SyncRun where
  reply : SyncReply
  started : Bool
  cancelled : Bool
deriving DecidableEq, Repr

/-- `deep_research_sync` (app.py 189-217) past the prompt check. The first
statement of its `try` block is `logger.info(...)` (app.py 203); since
`logger` is undefined this raises `NameError` at once, the outer
`except Exception` (app.py 215-217) formats it, and the
`asyncio.wait_for(run_deep_research(prompt), timeout=50.0)` at line 208 is
never reached: no research task is started and none is cancelled. The
deadline race written at app.py 205-214 — an unshielded 50s `wait_for` — is
kept here behind the `logger_defined` guard, which is how the handler would
behave if the name were bound. -/
def deep_research_sync (r : ResearchRun) : SyncRun :=
  if logger_defined then
    match wait_for false 50 r.duration with
    | (.completed, c) =>
        match run_deep_research r.outcome with
        | .ok result => ⟨.message result, true, c⟩
        | .error e => ⟨.message ("Research failed: " ++ e), true, c⟩
    | (.timedOut, c) =>
        ⟨.message "Research is taking longer than expected. It is still running in the background, but we are returning this message to prevent a timeout. Please refine your query or try a more specific topic.", true, c⟩
  else
    ⟨.message ("Research failed: " ++ "name \x27logger\x27 is not defined"),
     false, false⟩

/-- Response of the `deep_research` tool branch of `call_tool`: either a plain
text content, or the still-running sentinel JSON payload carrying the job id
(app.py 358-366). -/
inductive ToolReply
  | text (s : String)
  | sentinel (job_id : String)
deriving DecidableEq, Repr

/-- The `deep_research` branch of `call_tool` (app.py 325-368): allocates
`job_id = mcpJobId u`, starts `run_research_task` as a background task, and
waits up to 5s on `asyncio.shield` of that task. On completion it reads the
job's record from `RESEARCH_JOBS`; on timeout it returns the still-running
sentinel and, because of the shield, the task is not cancelled. The boolean
reports whether the underlying task was cancelled. -/
def call_tool_deep_research (u : String) (r : ResearchRun) (logs : List String) :
    ToolReply × Bool :=
  let job_id := mcpJobId u
  match wait_for true 5 r.duration with
  | (.completed, c) =>
      let job := mcpJobAt r logs r.duration
      if job.status = "completed" then (.text (job.result.getD ""), c)
      else if job.status = "failed" then (.text ("Error: " ++ pyStr job.error), c)
      else (.text "Error: Job finished but no result state found.", c)
  | (.timedOut, c) => (.sentinel job_id, c)

/-! ## Supervisor/worker fan-out (src/multi_agent_supervisor.py 148-284) -/

/-- A supervisor-history message, as far as `get_notes_from_tool_calls` is
concerned: `filter_messages(messages, include_types="tool")` keeps exactly the
`ToolMessage` objects; everything else (system/human/assistant messages) is
`other`. -/
inductive SupMsg
  | toolMsg (content : String) (nm : String) (tool_call_id : String)
  | other
deriving DecidableEq, Repr

/-- `get_notes_from_tool_calls` (multi_agent_supervisor.py 43-47). -/
def get_notes_from_tool_calls (messages : List SupMsg) : List String :=
  messages.filterMap fun m =>
    match m with
    | .toolMsg c _ _ => some c
    | .other => none

/-- One `ConductResearch` tool call issued by the plan step
(multi_agent_supervisor.py 193-195): its name, call id and topic. -/
structure ToolCall where
  nm : String
  call_id : String
  research_topic : String
deriving DecidableEq, Repr

/-- Outcome of one `researcher_agent.ainvoke` (an external collaborator,
multi_agent_supervisor.py 214-223): either the coroutine returns a state dict
(whose `compressed_research` key may be absent — `none` — and whose
`raw_notes` is a list of strings), or it raises. -/
inductive SubTaskResult
  | returns (compressed : Option String) (raw_notes : List String)
  | raises (msg : String)
deriving DecidableEq, Repr

/-- `asyncio.gather(*coros)` with the default `return_exceptions=False`
(multi_agent_supervisor.py 224): if any dispatched coroutine raises, the
gather call itself raises and the sibling results are discarded; otherwise it
returns every result, in dispatch order. -/
def gather : List SubTaskResult → Except String (List (Option String × List String))
  | [] => .ok []
  | .returns c rn :: rest => (gather rest).map ((c, rn) :: ·)
  | .raises m :: _ => .error m

/-- The `ConductResearch` fan-out of `supervisor_tools`
(multi_agent_supervisor.py 188-284) for a plan step whose tool calls are the
given `ConductResearch` instructions, given each dispatched researcher's
outcome. Returns the `notes` and added `raw_notes` of the `Command` update:
on the success path each call contributes a `ToolMessage` whose content is its
`compressed_research` or the default `"Error synthesizing research report"`,
and `notes` is extracted from the history plus those messages; if the gather
raised, the `except` branch (lines 261-270) returns notes from the prior
history only, discarding this step's results. -/
def supervisor_tools (prior : List SupMsg) (calls : List ToolCall)
    (results : List SubTaskResult) : List String × List String :=
  match gather results with
  | .error _ => (get_notes_from_tool_calls prior, [])
  | .ok rs =>
      let tool_messages : List SupMsg :=
        (calls.zip rs).map fun p => .toolMsg (p.2.1.getD "Error synthesizing research report") p.1.nm p.1.call_id
      let all_raw_notes := rs.map fun p => String.intercalate "\n" p.2
      (get_notes_from_tool_calls (prior ++ tool_messages), all_raw_notes)

/-- The state-dict pair a non-raising researcher invocation hands to the
aggregation (its `compressed_research` and `raw_notes` reads). -/
def researcherPair : SubTaskResult → Option String × List String
  | .returns c rn => (c, rn)
  | .raises _ => (none, [])

/-- The note one sub-task contributes to the aggregate on the success path:
its compressed summary, or the distinguishable default error note when the
`compressed_research` key is absent. -/
def noteOf (r : SubTaskResult) : String :=
  (researcherPair r).1.getD "Error synthesizing research report"

/-! ## Session multiplexer (app.py 379-498) -/

/-- The state of one bounded anyio memory-object stream: how many items are
buffered and its capacity (100 at app.py 386-387). -/
structure Mailbox where
  buffered : Nat
  capacity : Nat
deriving DecidableEq, Repr

/-- What one `send` on a bounded `MemoryObjectSendStream` does: enqueue and
return when the buffer has space, otherwise suspend the sending coroutine
until a consumer frees space (anyio raises no error and drops nothing). -/
inductive SendOutcome
  | delivered
  | suspended
deriving DecidableEq, Repr

/-- `await stream.send(item)` on a bounded anyio memory stream. -/
def streamSend (m : Mailbox) : SendOutcome × Mailbox :=
  if m.buffered < m.capacity then (.delivered, { m with buffered := m.buffered + 1 })
  else (.suspended, m)

/-- The response of `handle_messages` (app.py 460-498), one constructor per
exit; `blocked` is the state in which the handler is suspended inside
`input_sender.send` and has produced no response. -/
inductive MessagesResponse
  | missingSession
  | sessionNotFound
  | accepted
  | blocked
deriving DecidableEq, Repr

/-- Dict assignment on the session registry. -/
def setSession (s : List (String × Mailbox)) (id : String) (v : Mailbox) :
    List (String × Mailbox) :=
  (id, v) :: s.filter (fun p => p.1 ≠ id)

/-- `handle_messages` (app.py 460-498) for a request whose body parses into a
valid JSONRPC message, over the `web_server_sessions` registry. `sessionId` is
the id extracted from query params or header; the handler 400s without one,
404s when the registry has no entry, and otherwise performs
`await input_sender.send(...)` on the session's bounded inbound stream. -/
def handle_messages (sessions : List (String × Mailbox)) (sessionId : Option String) :
    MessagesResponse × List (String × Mailbox) :=
  match sessionId with
  | none => (.missingSession, sessions)
  | some sid =>
      match List.lookup sid sessions with
      | none => (.sessionNotFound, sessions)
      | some m =>
          match streamSend m with
          | (.delivered, m2) => (.accepted, setSession sessions sid m2)
          | (.suspended, _) => (.blocked, sessions)

/-- The observable actions of the `finally` block of `sse_generator`
(app.py 448-455), in program order. -/
inductive TeardownAction
  | cancelTask
  | removeSession
  | awaitTask
deriving DecidableEq, Repr

/-- The `finally` block of `sse_generator` (app.py 448-455): cancel the
server task; if the session id is still registered, delete it; then await the
cancelled task (swallowing its CancelledError). Returns the action sequence in
program order and the registry afterwards. -/
def sse_finally (sessions : List (String × Mailbox)) (sid : String) :
    List TeardownAction × List (String × Mailbox) :=
  ([.cancelTask] ++
     (if (List.lookup sid sessions).isSome then [.removeSession] else []) ++
     [.awaitTask],
   sessions.filter (fun p => p.1 ≠ sid))

/-! ## The JOBS store as a small operational model (app.py 70-89, 135-186) -/

/-- The atomic JOBS-store operations of the HTTP layer, one per write or read
site in app.py: the endpoint's insertion of a fresh Queued record (line 153),
the two writes of `background_deep_research` (lines 73-74 and 76-89), and the
endpoint's poll branch (lines 162-186), which only reads. Each is a single
step with no await inside, so concurrent readers see the store only between
operations. -/
inductive StoreOp
  | createJob (id : String)
  | setRunning (id : String)
  | finish (id : String) (o : BackendOutcome)
  | poll (id : String)
deriving DecidableEq, Repr

/-- Effect of one operation on the JOBS store. `setRunning` and `finish`
mutate the record only when present (the `if job_id in JOBS` guards at app.py
73, 79 and 86). `poll` performs no write. -/
def applyOp (s : Store) : StoreOp → Store
  | .createJob id => setEntry s id queuedJob
  | .setRunning id =>
      match List.lookup id s with
      | some j => setEntry s id (background_set_running j)
      | none => s
  | .finish id o =>
      match List.lookup id s with
      | some j => setEntry s id (background_finish o j)
      | none => s
  | .poll _ => s

/-- Whether an operation writes the record of job `id`. -/
def touchesJob (id : String) : StoreOp → Bool
  | .createJob i => i == id
  | .setRunning i => i == id
  | .finish i _ => i == id
  | .poll _ => false

/-- Program order of the writes touching one job id: the endpoint creates the
record once (under a fresh uuid) and the job's single background task sets
Running and then writes the terminal state, once each. A trace of the process
restricted to the writes of one id is therefore an initial segment of this
list. -/
def lifecycleOps (id : String) (o : BackendOutcome) : List StoreOp :=
  [.createJob id, .setRunning id, .finish id o]

/-- Effect of one operation on the binding of a single job id. -/
def keyStep (id : String) (v : Option JobState) : StoreOp → Option JobState
  | .createJob i => if i = id then some queuedJob else v
  | .setRunning i => if i = id then v.map background_set_running else v
  | .finish i o => if i = id then v.map (background_finish o) else v
  | .poll _ => v

/-- The binding of a job id after the first `n` of its lifecycle writes. -/
def lifecycleVal (o : BackendOutcome) : Nat → Option JobState
  | 0 => none
  | 1 => some queuedJob
  | 2 => some (background_set_running queuedJob)
  | _ + 3 => some (background_finish o (background_set_running queuedJob))

/-! ## Helper lemmas -/

theorem lookup_filter_ne {β : Type} (id i : String) (h : id ≠ i) (s : List (String × β)) :
    List.lookup id (s.filter fun p => p.1 ≠ i) = List.lookup id s := by
  induction s with
  | nil => rfl
  | cons p t ih =>
      obtain ⟨k, v⟩ := p
      by_cases hk : k = i
      · have h2 : (id == k) = false := by subst hk; simp [h]
        rw [List.filter_cons_of_neg (by simp [hk]), ih, List.lookup_cons, h2]
      · rw [List.filter_cons_of_pos (by simp [hk]), List.lookup_cons, List.lookup_cons]
        cases hik : (id == k)
        · exact ih
        · rfl

theorem lookup_filter_self {β : Type} (i : String) (s : List (String × β)) :
    List.lookup i (s.filter fun p => p.1 ≠ i) = none := by
  induction s with
  | nil => rfl
  | cons p t ih =>
      obtain ⟨k, v⟩ := p
      by_cases hk : k = i
      · rw [List.filter_cons_of_neg (by simp [hk])]
        exact ih
      · rw [List.filter_cons_of_pos (by simp [hk]), List.lookup_cons]
        have h3 : (i == k) = false := by simp [Ne.symm hk]
        rw [h3]
        exact ih

theorem filter_ne_idem {β : Type} (i : String) (s : List (String × β)) :
    ((s.filter fun p => p.1 ≠ i).filter fun p => p.1 ≠ i) = s.filter fun p => p.1 ≠ i := by
  induction s with
  | nil => rfl
  | cons p t ih =>
      by_cases hk : p.1 = i
      · simp [List.filter_cons, hk, ih]
      · simp [List.filter_cons, hk, ih]

/-! ## C3: result/error field invariant -/

/-- C3 fails as stated: a job in JOBS that ends Failed has its `result` field
set (to the failure-marked string), so "`result` is set iff `status = Done`"
does not hold on the code. -/
theorem failed_job_result_set :
    (background_finish (.raises "boom") (background_set_running queuedJob)).status
        = .failed ∧
    (background_finish (.raises "boom") (background_set_running queuedJob)).result
        = some "Failed: boom" := by
  exact ⟨rfl, rfl⟩

/-- C3 (amended): in every record a JOBS job passes through, `error` is set iff
`status = Failed`; `result` is unset while Queued or Running and set when Done;
but a Failed record's `result` is also set. In the RESEARCH_JOBS store,
`result` is set iff the status is "completed" and `error` is set iff it is
"failed". -/
theorem job_record_field_invariant :
    (∀ o : BackendOutcome, ∀ j ∈ httpJobStates o,
        (j.error.isSome ↔ j.status = .failed) ∧
        ((j.status = .queued ∨ j.status = .running) → j.result = none) ∧
        (j.status = .done → j.result.isSome) ∧
        (j.status = .failed → j.result.isSome)) ∧
    (∀ (r : ResearchRun) (logs : List String) (t : Nat),
        ((mcpJobAt r logs t).result.isSome ↔ (mcpJobAt r logs t).status = "completed") ∧
        ((mcpJobAt r logs t).error.isSome ↔ (mcpJobAt r logs t).status = "failed")) := by
  constructor
  · intro o j hj
    simp only [httpJobStates, List.mem_cons, List.not_mem_nil, or_false] at hj
    rcases hj with h | h | h
    · subst h; simp [queuedJob]
    · subst h; simp [queuedJob, background_set_running]
    · subst h
      cases hr : run_deep_research o with
      | ok rep => simp [background_finish, hr, queuedJob, background_set_running]
      | error e => simp [background_finish, hr, queuedJob, background_set_running]
  · intro r logs t
    by_cases ht : t < r.duration
    · simp [mcpJobAt, ht, mcpInitJob]
    · cases hr : run_deep_research r.outcome with
      | ok rep => simp [mcpJobAt, ht, mcpFinishJob, hr, mcpInitJob]
      | error e => simp [mcpJobAt, ht, mcpFinishJob, hr, mcpInitJob]

/-- Witness for `job_record_field_invariant` at the Queued record of a
concrete job. -/
theorem job_record_field_invariant_witness :
    (queuedJob.error.isSome ↔ queuedJob.status = .failed) ∧
    ((queuedJob.status = .queued ∨ queuedJob.status = .running) → queuedJob.result = none) ∧
    (queuedJob.status = .done → queuedJob.result.isSome) ∧
    (queuedJob.status = .failed → queuedJob.result.isSome) :=
  job_record_field_invariant.1 (.streams none) queuedJob (by simp [httpJobStates])

/-! ## C5: where a failed job's message lives -/

/-- C5 fails as stated: a failed RESEARCH_JOBS job's `result` field is `none`
(only `error` is set), so a client of the MCP store reading only `result`
gets nothing. -/
theorem mcp_failed_result_null :
    (mcpJobAt ⟨1, .raises "boom"⟩ [] 1).status = "failed" ∧
    (mcpJobAt ⟨1, .raises "boom"⟩ [] 1).result = none := by
  exact ⟨rfl, rfl⟩

/-- C5 (amended): a Failed JOBS job's `result` is always the failure-marked
string `"Failed: <error>"` — never `none` — so a reader of `result` alone sees
an informative message there; in the RESEARCH_JOBS store, however, a failed
job's `result` stays as it was (never written, hence `none`) and the
explanation is carried only by the `error` field. -/
theorem failed_job_message_location :
    (∀ (o : BackendOutcome) (j : JobState), (background_finish o j).status = .failed →
        (background_finish o j).result
            = some ("Failed: " ++ pyStr (background_finish o j).error) ∧
        (background_finish o j).error.isSome) ∧
    (∀ (e : String) (j : McpJob),
        (mcpFinishJob (.error e) j).result = j.result ∧
        (mcpFinishJob (.error e) j).error = some e) := by
  constructor
  · intro o j h
    cases hr : run_deep_research o with
    | ok rep => simp [background_finish, hr] at h
    | error e => simp [background_finish, hr, pyStr]
  · intro e j
    exact ⟨rfl, rfl⟩

/-- Witness for `failed_job_message_location` at a concrete raising backend. -/
theorem failed_job_message_location_witness :
    (background_finish (.raises "x") queuedJob).result
        = some ("Failed: " ++ pyStr (background_finish (.raises "x") queuedJob).error) ∧
    (background_finish (.raises "x") queuedJob).error.isSome :=
  failed_job_message_location.1 (.raises "x") queuedJob rfl

/-! ## C6: how backend failures are recorded -/

/-- C6 fails as stated: a backend invocation that returns malformed data (no
final state in the stream) is not recorded as Failed — run_deep_research turns
it into an error-message string, and the job is recorded as Done. -/
theorem malformed_backend_marked_done :
    (background_finish (.streams none) (background_set_running queuedJob)).status
        = .done ∧
    (background_finish (.streams none) (background_set_running queuedJob)).result
        = some "Error: No final state returned from graph stream." ∧
    JobStatus.done ≠ JobStatus.failed := by
  exact ⟨rfl, rfl, by decide⟩

/-- C6 (amended): a backend invocation that raises is recorded into the job as
Failed; one that returns malformed data (no final state, or a state with
neither a final nor a draft report) yields an error-message string that is
recorded as the `result` of a job marked Done; in every case the job lands in
a recorded terminal state, so no backend failure escapes the executor —
nothing is propagated to the caller as a transport-level fault. -/
theorem backend_failure_recorded :
    (∀ msg : String,
        background_finish (.raises msg) (background_set_running queuedJob)
          = ⟨.failed, some ("Failed: " ++ msg), some msg⟩) ∧
    (background_finish (.streams none) (background_set_running queuedJob)
        = ⟨.done, some "Error: No final state returned from graph stream.", none⟩) ∧
    (∀ st : GraphState, pyTruthy st.final_report = false → pyTruthy st.draft_report = false →
        background_finish (.streams (some st)) (background_set_running queuedJob)
          = ⟨.done, some "Error: No final_report or draft_report found in result state.", none⟩) ∧
    (∀ o : BackendOutcome,
        (background_finish o (background_set_running queuedJob)).status = .done ∨
        (background_finish o (background_set_running queuedJob)).status = .failed) := by
  refine ⟨fun msg => rfl, rfl, ?_, ?_⟩
  · intro st h1 h2
    simp [background_finish, run_deep_research, h1, h2, background_set_running, queuedJob]
  · intro o
    cases hr : run_deep_research o with
    | ok rep => left; simp [background_finish, hr]
    | error e => right; simp [background_finish, hr]

/-- Witness for `backend_failure_recorded` at a state with neither report. -/
theorem backend_failure_recorded_witness :
    background_finish (.streams (some ⟨none, none⟩)) (background_set_running queuedJob)
      = ⟨.done, some "Error: No final_report or draft_report found in result state.", none⟩ :=
  (backend_failure_recorded.2.2.1) ⟨none, none⟩ rfl rfl

/-! ## C2: supervisor fan-out aggregation -/

theorem gather_ok (results : List SubTaskResult)
    (h : ∀ r ∈ results, ∀ m, r ≠ .raises m) :
    gather results = .ok (results.map researcherPair) := by
  induction results with
  | nil => rfl
  | cons r rest ih =>
      cases r with
      | returns c rn =>
          rw [List.map_cons, gather,
            ih (fun x hx => h x (List.mem_cons_of_mem _ hx))]
          rfl
      | raises m => exact absurd rfl (h _ (List.mem_cons_self _ _) m)

theorem map_zip_snd {α β γ : Type} (f : β → γ) :
    ∀ (as : List α) (bs : List β), as.length = bs.length →
      (as.zip bs).map (fun p => f p.2) = bs.map f := by
  intro as
  induction as with
  | nil =>
      intro bs h
      cases bs with
      | nil => rfl
      | cons b bs => simp at h
  | cons a as ih =>
      intro bs h
      cases bs with
      | nil => simp at h
      | cons b bs =>
          simp only [List.zip_cons_cons, List.map_cons]
          rw [ih bs (by simpa using h)]

/-- C2 fails as stated: with two ConductResearch instructions of which the
second raises, `asyncio.gather` (default `return_exceptions=False`) raises,
the `except` branch runs, and the step's aggregate has zero entries instead of
two — the first sibling's summary "A" is dropped along with its raw notes. -/
theorem supervisor_abort_on_exception :
    supervisor_tools []
        [⟨"ConductResearch", "1", "topic one"⟩, ⟨"ConductResearch", "2", "topic two"⟩]
        [.returns (some "A") ["note A"], .raises "boom"]
      = ([], []) ∧
    ([] : List String).length ≠ 2 := by
  exact ⟨rfl, by decide⟩

/-- C2 (amended): when no dispatched researcher raises, the notes aggregate is
the prior notes followed by exactly one entry per ConductResearch instruction,
in issue order; an instruction whose returned state lacks a compressed summary
contributes the distinguishable error note "Error synthesizing research
report" in place of its summary and does not disturb its siblings' entries.
(When a researcher raises, the whole step's results are discarded instead —
see the counterexample.) -/
theorem supervisor_aggregation (prior : List SupMsg) (calls : List ToolCall)
    (results : List SubTaskResult)
    (hlen : calls.length = results.length)
    (hnoexn : ∀ r ∈ results, ∀ m, r ≠ .raises m) :
    (supervisor_tools prior calls results).1
        = get_notes_from_tool_calls prior ++ results.map noteOf ∧
    (supervisor_tools prior calls results).1.length
        = (get_notes_from_tool_calls prior).length + results.length ∧
    (∀ c rn, noteOf (.returns (some c) rn) = c) ∧
    (∀ rn, noteOf (.returns none rn) = "Error synthesizing research report") := by
  have hg := gather_ok results hnoexn
  have hmain : (supervisor_tools prior calls results).1
      = get_notes_from_tool_calls prior ++ results.map noteOf := by
    rw [supervisor_tools, hg]
    simp only [get_notes_from_tool_calls, List.filterMap_append]
    have hzip : ∀ l : List (ToolCall × (Option String × List String)),
        (l.map (fun p => SupMsg.toolMsg (p.2.1.getD "Error synthesizing research report")
            p.1.nm p.1.call_id)).filterMap
          (fun m => match m with | SupMsg.toolMsg c _ _ => some c | .other => none)
          = l.map (fun p => p.2.1.getD "Error synthesizing research report") := by
      intro l
      induction l with
      | nil => rfl
      | cons a t ih => simp only [List.map_cons, List.filterMap_cons, ih]
    rw [hzip, map_zip_snd (fun q => q.1.getD "Error synthesizing research report")
          calls (results.map researcherPair) (by simpa using hlen),
        List.map_map]
    rfl
  refine ⟨hmain, ?_, fun c rn => rfl, fun rn => rfl⟩
  rw [hmain]
  simp [get_notes_from_tool_calls]

/-- Witness for `supervisor_aggregation`: two instructions, the second of
which fails to synthesize a summary; the aggregate keeps both entries in
order, with the error note standing in for the failed one. -/
theorem supervisor_aggregation_witness :
    (supervisor_tools []
        [⟨"ConductResearch", "1", "topic one"⟩, ⟨"ConductResearch", "2", "topic two"⟩]
        [.returns (some "A") ["note A"], .returns none []]).1
      = get_notes_from_tool_calls [] ++
          [SubTaskResult.returns (some "A") ["note A"], .returns none []].map noteOf :=
  (supervisor_aggregation []
      [⟨"ConductResearch", "1", "topic one"⟩, ⟨"ConductResearch", "2", "topic two"⟩]
      [.returns (some "A") ["note A"], .returns none []]
      rfl (by intro r hr m; fin_cases hr <;> simp)).1

/-! ## C7: posting into a session -/

/-- C7 fails as stated: posting into a registered session whose bounded
inbound mailbox is saturated (100 buffered of capacity 100) leaves the handler
suspended inside `input_sender.send` — there is no MailboxFull response in the
code, and the caller blocks instead of getting a backpressure error. -/
theorem full_mailbox_blocks :
    handle_messages [("s1", ⟨100, 100⟩)] (some "s1")
      = (.blocked, [("s1", ⟨100, 100⟩)]) := by
  rfl

/-- C7 (amended): a request without a session id gets the 400 response; an
unknown session id gets the SessionNotFound (404) response, registry
untouched; posting into a registered session enqueues the message when the
bounded inbound mailbox has space; when the mailbox is saturated the handler
suspends inside `send` until a consumer frees space — no MailboxFull error is
produced, and the message is neither dropped nor rejected. -/
theorem post_message_outcomes (sessions : List (String × Mailbox)) (sid : String)
    (m : Mailbox) :
    (handle_messages sessions none = (.missingSession, sessions)) ∧
    (List.lookup sid sessions = none →
        handle_messages sessions (some sid) = (.sessionNotFound, sessions)) ∧
    (List.lookup sid sessions = some m → m.buffered < m.capacity →
        handle_messages sessions (some sid)
          = (.accepted, setSession sessions sid { m with buffered := m.buffered + 1 })) ∧
    (List.lookup sid sessions = some m → ¬ m.buffered < m.capacity →
        handle_messages sessions (some sid) = (.blocked, sessions)) := by
  refine ⟨rfl, ?_, ?_, ?_⟩
  · intro h
    rw [handle_messages, h]
  · intro h hc
    rw [handle_messages, h]
    simp only [streamSend, if_pos hc]
  · intro h hc
    rw [handle_messages, h]
    simp only [streamSend, if_neg hc]

/-- Witness for `post_message_outcomes`: a registry with one half-full
session accepts a post into it; an unknown id gets SessionNotFound. -/
theorem post_message_outcomes_witness :
    handle_messages [("s1", ⟨3, 100⟩)] (some "s1")
        = (.accepted, setSession [("s1", ⟨3, 100⟩)] "s1" ⟨4, 100⟩) ∧
    handle_messages [("s1", ⟨3, 100⟩)] (some "s9")
        = (.sessionNotFound, [("s1", ⟨3, 100⟩)]) := by
  constructor
  · exact (post_message_outcomes [("s1", ⟨3, 100⟩)] "s1" ⟨3, 100⟩).2.2.1 rfl (by decide)
  · exact (post_message_outcomes [("s1", ⟨3, 100⟩)] "s9" ⟨3, 100⟩).2.1 rfl

/-! ## C8: session teardown -/

/-- C8 fails as stated: the `finally` block cancels the driving task, then
removes the session id from the registry, and only afterwards awaits the
cancelled task — the task is not awaited before the session id is forgotten. -/
theorem await_after_registry_removal :
    (sse_finally [("s1", ⟨0, 100⟩)] "s1").1
      = [.cancelTask, .removeSession, .awaitTask] := by
  rfl

/-- C8 (amended): teardown cancels the driving task first and awaits it last,
so the await happens after — not before — the session id is removed from the
shared registry; afterwards the id is unregistered, and teardown is
idempotent: a duplicate teardown of the same id performs no second removal
and leaves the registry unchanged, so the removal happens exactly once. -/
theorem session_teardown (sessions : List (String × Mailbox)) (sid : String) :
    ((sse_finally sessions sid).1.head? = some .cancelTask) ∧
    ((sse_finally sessions sid).1.getLast? = some .awaitTask) ∧
    (List.lookup sid (sse_finally sessions sid).2 = none) ∧
    ((sse_finally (sse_finally sessions sid).2 sid).1 = [.cancelTask, .awaitTask]) ∧
    ((sse_finally (sse_finally sessions sid).2 sid).2 = (sse_finally sessions sid).2) := by
  refine ⟨?_, ?_, lookup_filter_self sid sessions, ?_, ?_⟩
  · rw [sse_finally]
    rfl
  · rw [sse_finally]
    by_cases h : (List.lookup sid sessions).isSome
    · rw [if_pos h]
      rfl
    · rw [if_neg h]
      rfl
  · have h := lookup_filter_self (β := Mailbox) sid sessions
    simp [sse_finally, h]
  · exact filter_ne_idem sid sessions

/-! ## C1: racing the research task against a deadline -/

/-- C1 fails as stated: the synchronous `/deep-research/sync` endpoint never
races anything against its deadline. Its handler evaluates the undefined name
`logger` as the first statement of its `try` block, so every call — shown
here for a research run that would need 60 time units — returns the fixed
NameError failure message: no research task is started, nothing keeps running
in the background, and the reply is a plain message carrying no JobId, not a
still-running sentinel. -/
theorem sync_endpoint_name_error :
    deep_research_sync ⟨60, .streams none⟩
      = ⟨.message ("Research failed: " ++ "name \x27logger\x27 is not defined"),
         false, false⟩ ∧
    (deep_research_sync ⟨60, .streams none⟩).started = false := by
  exact ⟨rfl, rfl⟩

/-- C1 (amended): the operation that actually races the research task against
a deadline is the MCP `deep_research` tool: it waits on `asyncio.shield` of
the task, so when its 5s deadline elapses the task is not cancelled, the
caller receives the still-running sentinel carrying the JobId, and a poll at
or after the task's own finishing time observes a terminal status. The
`/deep-research/sync` endpoint performs no deadline race at all: `logger` is
undefined in app.py, so for every request the handler raises NameError before
reaching `asyncio.wait_for`, returns the fixed failure message, and never
starts — let alone cancels — a research task. -/
theorem mcp_deadline_race (u : String) (r : ResearchRun) (logs : List String) :
    (5 < r.duration →
        call_tool_deep_research u r logs = (.sentinel (mcpJobId u), false) ∧
        (mcpJobAt r logs 5).status = "running" ∧
        (∀ t, r.duration ≤ t →
            (mcpJobAt r logs t).status = "completed" ∨
            (mcpJobAt r logs t).status = "failed")) ∧
    deep_research_sync r
      = ⟨.message ("Research failed: " ++ "name \x27logger\x27 is not defined"),
         false, false⟩ := by
  constructor
  · intro hd
    have hw : wait_for true 5 r.duration = (.timedOut, false) := by
      rw [wait_for, if_neg (by omega)]
      rfl
    refine ⟨?_, ?_, ?_⟩
    · rw [call_tool_deep_research, hw]
    · rw [mcpJobAt, if_pos (by omega)]
      rfl
    · intro t ht
      rw [mcpJobAt, if_neg (by omega)]
      cases hr : run_deep_research r.outcome with
      | ok rep => left; simp [mcpFinishJob, hr]
      | error e => right; simp [mcpFinishJob, hr]
  · rfl

/-- Witness for `mcp_deadline_race`: a research run that needs 60 time units
outlives the MCP tool's 5s deadline; the tool returns its sentinel with the
task alive, while the sync endpoint returns its NameError message having
started nothing. -/
theorem mcp_deadline_race_witness :
    call_tool_deep_research "abcd1234-ef00" ⟨60, .streams none⟩ []
        = (.sentinel (mcpJobId "abcd1234-ef00"), false) ∧
    deep_research_sync ⟨60, .streams none⟩
        = ⟨.message ("Research failed: " ++ "name \x27logger\x27 is not defined"),
           false, false⟩ := by
  have h := mcp_deadline_race "abcd1234-ef00" ⟨60, .streams none⟩ []
  exact ⟨(h.1 (by decide)).1, h.2⟩

/-! ## C10: the "no keywords added" job-id sentinel -/

/-- C10: a job_id that is absent, or whose trimmed form is empty, or whose
trimmed-and-lowercased form is the literal "no keywords added", is treated as
missing; for such requests the endpoint never takes the poll branch, and when
the request carries a nonempty prompt or query a fresh Queued job is inserted
and its background task is spawned with that prompt. -/
theorem sentinel_job_id_starts_new_job (jid : Option String) (freshId : String) (s : Store) :
    (is_job_id_missing jid = true ↔
        (jid = none ∨ ∃ j, jid = some j ∧
          ((pyStrip j).isEmpty = true ∨ pyLower (pyStrip j) = "no keywords added"))) ∧
    (∀ body : ReqBody, is_job_id_missing body.job_id = true →
        (∀ r, (deep_research_endpoint freshId body s).1 ≠ .polled r) ∧
        ((pyStrip ((pyOrOpt body.prompt body.query).getD "")).isEmpty = false →
            deep_research_endpoint freshId body s
              = (.started freshId, setEntry s freshId queuedJob,
                 some (freshId, pyStrip ((pyOrOpt body.prompt body.query).getD ""))))) := by
  constructor
  · cases jid with
    | none => simp [is_job_id_missing]
    | some j =>
        constructor
        · intro h
          refine Or.inr ⟨j, rfl, ?_⟩
          by_cases he : j.isEmpty = true
          · have hj : j = "" := (String.isEmpty_iff j).mp he
            subst hj
            exact Or.inl rfl
          · by_cases ht : (pyStrip j).isEmpty = true
            · exact Or.inl ht
            · right
              have h2 : is_job_id_missing (some j)
                  = (pyLower (pyStrip j) == "no keywords added") := by
                simp only [is_job_id_missing, if_neg he, if_neg ht]
              rw [h2] at h
              exact eq_of_beq h
        · intro h
          rcases h with h | ⟨j2, hj2, h⟩
          · exact absurd h (by simp)
          · obtain rfl := Option.some.inj hj2
            by_cases he : j.isEmpty = true
            · simp [is_job_id_missing, he]
            · by_cases ht : (pyStrip j).isEmpty = true
              · simp [is_job_id_missing, he, ht]
              · rcases h with h | h
                · exact absurd h ht
                · simp [is_job_id_missing, he, ht, h]
  · intro body h
    constructor
    · intro r
      simp only [deep_research_endpoint, if_pos h]
      by_cases hp : (pyStrip ((pyOrOpt body.prompt body.query).getD "")).isEmpty = true
      · rw [if_pos hp]
        simp
      · rw [if_neg hp]
        simp
    · intro hp
      simp only [deep_research_endpoint, if_pos h]
      rw [if_neg (by simp [hp])]

/-- Witness for `sentinel_job_id_starts_new_job`: a request whose job_id is
"  No Keywords Added " (whitespace and capitals) and whose query is
"westpac ai" starts a fresh Queued job from the query. -/
theorem sentinel_job_id_starts_new_job_witness :
    is_job_id_missing (some "  No Keywords Added ") = true ∧
    deep_research_endpoint "f-1" ⟨some "  No Keywords Added ", none, some "westpac ai"⟩ []
      = (.started "f-1", setEntry [] "f-1" queuedJob, some ("f-1", "westpac ai")) := by
  have h := sentinel_job_id_starts_new_job (some "  No Keywords Added ") "f-1" []
  constructor
  · exact (h.1).mpr (Or.inr ⟨_, rfl, Or.inr (by decide)⟩)
  · have h2 := (h.2 ⟨some "  No Keywords Added ", none, some "westpac ai"⟩ (by decide)).2
      (by decide)
    rw [h2]
    rfl

/-! ## C4: terminal states are immutable -/

theorem lookup_setEntry (s : Store) (i id : String) (v : JobState) :
    List.lookup id (setEntry s i v) = if i = id then some v else List.lookup id s := by
  rw [setEntry, List.lookup_cons]
  by_cases h : i = id
  · subst h
    rw [if_pos rfl]
    have hb : (i == i) = true := beq_self_eq_true i
    rw [hb]
  · have hb : (id == i) = false := by simp [Ne.symm h]
    rw [hb, if_neg h]
    exact lookup_filter_ne id i (fun hh => h hh.symm) s

theorem keyStep_untouched (id : String) (v : Option JobState) (op : StoreOp)
    (h : touchesJob id op = false) : keyStep id v op = v := by
  cases op with
  | createJob i =>
      have hne : ¬ i = id := by simpa [touchesJob] using h
      simp [keyStep, hne]
  | setRunning i =>
      have hne : ¬ i = id := by simpa [touchesJob] using h
      simp [keyStep, hne]
  | finish i o =>
      have hne : ¬ i = id := by simpa [touchesJob] using h
      simp [keyStep, hne]
  | poll i => rfl

theorem lookup_applyOp (s : Store) (op : StoreOp) (id : String) :
    List.lookup id (applyOp s op) = keyStep id (List.lookup id s) op := by
  cases op with
  | createJob i =>
      simp only [applyOp, keyStep]
      exact lookup_setEntry s i id queuedJob
  | setRunning i =>
      cases hl : List.lookup i s with
      | none =>
          simp only [applyOp, keyStep, hl]
          by_cases h : i = id
          · subst h
            rw [if_pos rfl, hl]
            rfl
          · rw [if_neg h]
      | some j =>
          simp only [applyOp, keyStep, hl]
          rw [lookup_setEntry]
          by_cases h : i = id
          · subst h
            rw [if_pos rfl, if_pos rfl, hl]
            rfl
          · rw [if_neg h, if_neg h]
  | finish i o =>
      cases hl : List.lookup i s with
      | none =>
          simp only [applyOp, keyStep, hl]
          by_cases h : i = id
          · subst h
            rw [if_pos rfl, hl]
            rfl
          · rw [if_neg h]
      | some j =>
          simp only [applyOp, keyStep, hl]
          rw [lookup_setEntry]
          by_cases h : i = id
          · subst h
            rw [if_pos rfl, if_pos rfl, hl]
            rfl
          · rw [if_neg h, if_neg h]
  | poll i => rfl

theorem lookup_foldl (ops : List StoreOp) (s : Store) (id : String) :
    List.lookup id (ops.foldl applyOp s) = ops.foldl (keyStep id) (List.lookup id s) := by
  induction ops generalizing s with
  | nil => rfl
  | cons op rest ih =>
      rw [List.foldl_cons, List.foldl_cons, ih (applyOp s op), lookup_applyOp]

theorem foldl_keyStep_filter (id : String) (ops : List StoreOp) (v : Option JobState) :
    ops.foldl (keyStep id) v = (ops.filter (touchesJob id)).foldl (keyStep id) v := by
  induction ops generalizing v with
  | nil => rfl
  | cons op rest ih =>
      cases h : touchesJob id op with
      | true =>
          rw [List.foldl_cons, List.filter_cons_of_pos h, List.foldl_cons, ih]
      | false =>
          rw [List.foldl_cons, List.filter_cons_of_neg (by simp [h]),
            keyStep_untouched id v op h, ih]

theorem foldl_lifecycle_take (id : String) (o : BackendOutcome) (k : Nat) :
    ((lifecycleOps id o).take k).foldl (keyStep id) none = lifecycleVal o (min k 3) := by
  match k with
  | 0 => rfl
  | 1 =>
      have hm : min 1 3 = 1 := by omega
      rw [hm]
      simp [lifecycleOps, keyStep, lifecycleVal]
  | 2 =>
      have hm : min 2 3 = 2 := by omega
      rw [hm]
      simp [lifecycleOps, keyStep, lifecycleVal]
  | n + 3 =>
      have hm : min (n + 3) 3 = 3 := by omega
      rw [hm]
      simp [lifecycleOps, keyStep, lifecycleVal, List.take]

theorem lifecycleVal_terminal (o : BackendOutcome) (n : Nat) (j : JobState)
    (hv : lifecycleVal o n = some j)
    (ht : j.status = .done ∨ j.status = .failed) :
    3 ≤ n ∧ j = background_finish o (background_set_running queuedJob) := by
  match n with
  | 0 => exact absurd hv (by simp [lifecycleVal])
  | 1 =>
      rw [lifecycleVal] at hv
      obtain rfl := Option.some.inj hv
      rcases ht with ht | ht <;> simp [queuedJob] at ht
  | 2 =>
      rw [lifecycleVal] at hv
      obtain rfl := Option.some.inj hv
      rcases ht with ht | ht <;> simp [queuedJob, background_set_running] at ht
  | n + 3 =>
      rw [lifecycleVal] at hv
      exact ⟨by omega, (Option.some.inj hv).symm⟩

theorem pollMessage_congr (id : String) (s1 s2 : Store)
    (h : List.lookup id s1 = List.lookup id s2) :
    pollMessage id s1 = pollMessage id s2 := by
  rw [pollMessage, pollMessage, h]

/-- C4: once a job's record in JOBS is terminal (Done or Failed), no later
operation of the process changes it: a trace whose writes for this id follow
the program's per-job order (created once under a fresh uuid, then the job's
single background task writes Running and then the terminal state, once each)
leaves the record — and hence every later poll's reply — identical to what it
was when the terminal state was observed; the poll branch itself never writes
the store. -/
theorem terminal_status_immutable (ops pre suf : List StoreOp) (id : String)
    (j : JobState) (o : BackendOutcome) (k : Nat)
    (hsplit : ops = pre ++ suf)
    (htrace : ops.filter (touchesJob id) = (lifecycleOps id o).take k)
    (hj : List.lookup id (pre.foldl applyOp ([] : Store)) = some j)
    (hterm : j.status = .done ∨ j.status = .failed) :
    List.lookup id (ops.foldl applyOp ([] : Store)) = some j ∧
    pollMessage id (ops.foldl applyOp ([] : Store))
      = pollMessage id (pre.foldl applyOp ([] : Store)) ∧
    (∀ s : Store, applyOp s (.poll id) = s) := by
  subst hsplit
  rw [List.filter_append] at htrace
  have hpre : List.lookup id (pre.foldl applyOp ([] : Store))
      = (pre.filter (touchesJob id)).foldl (keyStep id) none := by
    rw [lookup_foldl, foldl_keyStep_filter]
    rfl
  have hfpre : pre.filter (touchesJob id)
      = (lifecycleOps id o).take (min (pre.filter (touchesJob id)).length k) := by
    have h1 := congrArg (List.take (pre.filter (touchesJob id)).length) htrace
    rw [List.take_left, List.take_take] at h1
    exact h1
  have hval : lifecycleVal o (min (min (pre.filter (touchesJob id)).length k) 3)
      = some j := by
    rw [← foldl_lifecycle_take id o, ← hfpre, ← hpre, hj]
  have hge := lifecycleVal_terminal o _ j hval hterm
  have hlen3 : 3 ≤ min (min (pre.filter (touchesJob id)).length k) 3 := hge.1
  have hlenpre : 3 ≤ (pre.filter (touchesJob id)).length ∧ 3 ≤ k := by
    constructor <;> omega
  have hlensum : (pre.filter (touchesJob id)).length
      + (suf.filter (touchesJob id)).length = min k 3 := by
    have h2 := congrArg List.length htrace
    rw [List.length_append, List.length_take] at h2
    exact h2
  have hsufnil : suf.filter (touchesJob id) = [] := by
    have : (suf.filter (touchesJob id)).length = 0 := by omega
    exact List.eq_nil_of_length_eq_zero this
  have hfull : List.lookup id ((pre ++ suf).foldl applyOp ([] : Store))
      = List.lookup id (pre.foldl applyOp ([] : Store)) := by
    rw [List.foldl_append, lookup_foldl suf, foldl_keyStep_filter, hsufnil]
    rfl
  exact ⟨hfull.trans hj, pollMessage_congr id _ _ hfull, fun s => rfl⟩

/-- Witness for `terminal_status_immutable`: job "a" is created, run and
finished; a later poll of "a" and an unrelated job creation leave its Done
record unchanged. -/
theorem terminal_status_immutable_witness :
    List.lookup "a"
        (([.createJob "a", .setRunning "a", .finish "a" (.streams none), .poll "a",
           .createJob "b"] : List StoreOp).foldl applyOp ([] : Store))
      = some (background_finish (.streams none) (background_set_running queuedJob)) :=
  (terminal_status_immutable
      [.createJob "a", .setRunning "a", .finish "a" (.streams none), .poll "a",
       .createJob "b"]
      [.createJob "a", .setRunning "a", .finish "a" (.streams none)]
      [.poll "a", .createJob "b"] "a"
      (background_finish (.streams none) (background_set_running queuedJob))
      (.streams none) 3 rfl rfl rfl (Or.inl rfl)).1

/-! ## C9: job-id allocation and record visibility -/

/-- C9 fails as stated: two distinct job-creation calls of the MCP tool can
return the same JobId, because the id is the uuid string truncated to its
first 8 characters — two distinct uuids sharing that prefix collide. (And the
record an MCP-returned id refers to has status "running", never Queued; see
the amended theorem.) -/
theorem truncated_job_id_collision :
    "11112222-aaaa-4bbb-8ccc-000000000001" ≠ "11112222-aaaa-4bbb-8ccc-000000000002" ∧
    mcpJobId "11112222-aaaa-4bbb-8ccc-000000000001"
      = mcpJobId "11112222-aaaa-4bbb-8ccc-000000000002" := by
  exact ⟨by decide, rfl⟩

/-- C9 (amended): the HTTP endpoint inserts the fresh id's Queued record into
JOBS before returning the id — so at the moment the id is returned the Queued
record is visible to any reader — and a fresh (not yet stored) uuid is
distinct from every id already issued; the MCP tool's id is the 8-character
truncation of its uuid, distinct only as long as the truncations differ (see
the counterexample), and at the moment the timeout sentinel returns that id
the visible RESEARCH_JOBS record has status "running", not Queued. -/
theorem job_creation_visibility (freshId : String) (body : ReqBody) (s : Store)
    (u : String) (r : ResearchRun) (logs : List String) :
    (is_job_id_missing body.job_id = true →
      (pyStrip ((pyOrOpt body.prompt body.query).getD "")).isEmpty = false →
      List.lookup freshId s = none →
        (deep_research_endpoint freshId body s).1 = .started freshId ∧
        List.lookup freshId (deep_research_endpoint freshId body s).2.1
          = some queuedJob ∧
        (∀ id0, List.lookup id0 s ≠ none → freshId ≠ id0)) ∧
    (5 < r.duration →
        (call_tool_deep_research u r logs).1 = .sentinel (mcpJobId u) ∧
        (mcpJobAt r logs 5).status = "running" ∧
        mcpJobId u = ⟨u.data.take 8⟩) := by
  constructor
  · intro h hp hfresh
    have hend : deep_research_endpoint freshId body s
        = (.started freshId, setEntry s freshId queuedJob,
           some (freshId, pyStrip ((pyOrOpt body.prompt body.query).getD ""))) := by
      simp only [deep_research_endpoint, if_pos h]
      rw [if_neg (by simp [hp])]
    refine ⟨by rw [hend], ?_, ?_⟩
    · rw [hend]
      show List.lookup freshId (setEntry s freshId queuedJob) = some queuedJob
      rw [lookup_setEntry, if_pos rfl]
    · intro id0 hid0 heq
      exact hid0 (heq ▸ hfresh)
  · intro hd
    have hw : wait_for true 5 r.duration = (.timedOut, false) := by
      rw [wait_for, if_neg (by omega)]
      rfl
    refine ⟨?_, ?_, rfl⟩
    · rw [call_tool_deep_research, hw]
    · rw [mcpJobAt, if_pos (by omega)]
      rfl

/-- Witness for `job_creation_visibility`: a prompt-only request under fresh
id "fresh-1" against an empty store, and an MCP run of 9 time units. -/
theorem job_creation_visibility_witness :
    (deep_research_endpoint "fresh-1" ⟨none, some "topic", none⟩ []).1
        = .started "fresh-1" ∧
    (call_tool_deep_research "11112222-aaaa" ⟨9, .streams none⟩ []).1
        = .sentinel (mcpJobId "11112222-aaaa") := by
  have h := job_creation_visibility "fresh-1" ⟨none, some "topic", none⟩ []
      "11112222-aaaa" ⟨9, .streams none⟩ []
  exact ⟨(h.1 (by decide) (by decide) rfl).1, (h.2 (by decide)).1⟩

end DeepResearch
